import Mathlib

/-!
Shallow embedding of the FlavumHive bot core (rate limiter, transactional
connection scope, personality registry, Reddit ingestion cycle, datetime
adapters, tweet-content truncation), with theorems checking the
natural-language specification against the code.
-/

namespace ContinuousTwitterBot

/-- Rate-limit configuration read in `ContinuousTwitterBot.__init__`
(src/continuous_twitter_bot.py lines 90-95):
`tweets_per_hour` and `min_delay_between_actions` come from
`config['platforms']['twitter']['rate_limits']`.  Both are integers in the
configuration; `tweets_per_hour` is assumed positive by the Python code
(`3600 // tweets_per_hour` would raise on zero). -/
structure RateConfig where
  tweets_per_hour : ℕ
  min_delay : ℕ
deriving DecidableEq

/-- `self.min_interval = max(3600 // self.tweets_per_hour, self.min_delay)`
(line 94).  `//` is Python floor division, `Nat.div` here. -/
def min_interval (c : RateConfig) : ℕ :=
  max (3600 / c.tweets_per_hour) c.min_delay

/-- `self.max_interval = self.min_interval * 2` (line 95). -/
def max_interval (c : RateConfig) : ℕ :=
  min_interval c * 2

/-- `get_next_tweet_delay` (lines 168-172):
`base_delay = random.randint(self.min_interval, self.max_interval)` (an
integer draw, modelled by the parameter `base`),
`jitter = random.uniform(-self.min_delay/2, self.min_delay/2)` (a real
draw, modelled by the rational parameter `jitter`), and the result is
`max(self.min_interval, base_delay + jitter)`. -/
def get_next_tweet_delay (c : RateConfig) (base : ℕ) (jitter : ℚ) : ℚ :=
  max (min_interval c : ℚ) ((base : ℚ) + jitter)

/-- `should_post_tweet` (lines 174-180): returns `True` when
`self.last_tweet_time` is `None`; otherwise compares the elapsed seconds
against a fresh `get_next_tweet_delay()` draw. -/
def should_post_tweet (c : RateConfig) (last_tweet_time : Option ℚ) (now : ℚ)
    (base : ℕ) (jitter : ℚ) : Bool :=
  match last_tweet_time with
  | none => true
  | some t => decide (now - t ≥ get_next_tweet_delay c base jitter)

/-- C2: for every random draw (`base` uniform on `[min_interval, max_interval]`,
`jitter` uniform on `[-min_delay/2, min_delay/2]`), the delay returned by
`get_next_tweet_delay` is at least `min_interval` and at most
`max_interval + min_delay/2`. -/
theorem get_next_tweet_delay_bounds (c : RateConfig) (base : ℕ) (jitter : ℚ)
    (hb1 : min_interval c ≤ base) (hb2 : base ≤ max_interval c)
    (hj1 : -((c.min_delay : ℚ) / 2) ≤ jitter) (hj2 : jitter ≤ (c.min_delay : ℚ) / 2) :
    (min_interval c : ℚ) ≤ get_next_tweet_delay c base jitter ∧
      get_next_tweet_delay c base jitter ≤ (max_interval c : ℚ) + (c.min_delay : ℚ) / 2 := by
  constructor
  · exact le_max_left _ _
  · apply max_le
    · have h1 : (min_interval c : ℚ) ≤ (max_interval c : ℚ) := by
        have : min_interval c ≤ max_interval c := by
          unfold max_interval; omega
        exact_mod_cast this
      have h2 : (0 : ℚ) ≤ (c.min_delay : ℚ) / 2 := by positivity
      linarith
    · have hb2' : (base : ℚ) ≤ (max_interval c : ℚ) := by exact_mod_cast hb2
      linarith

/-- Witness for C2 at the concrete config `tweets_per_hour = 2`,
`min_delay = 20` (so `min_interval = 1800`, `max_interval = 3600`),
base draw `2000`, jitter `5`. -/
theorem get_next_tweet_delay_bounds_witness :
    (min_interval ⟨2, 20⟩ : ℚ) ≤ get_next_tweet_delay ⟨2, 20⟩ 2000 5 ∧
      get_next_tweet_delay ⟨2, 20⟩ 2000 5 ≤ (max_interval ⟨2, 20⟩ : ℚ) + ((20 : ℕ) : ℚ) / 2 :=
  get_next_tweet_delay_bounds ⟨2, 20⟩ 2000 5 (by decide) (by decide)
    (by norm_num) (by norm_num)

/-- C3: once a tweet is recorded at time `t`, `should_post_tweet` returns
`false` for every possible random draw as long as `now - t < min_interval`;
and with no recorded tweet it returns `true`. -/
theorem should_post_tweet_spec (c : RateConfig) (t now : ℚ) (base : ℕ) (jitter : ℚ)
    (hb1 : min_interval c ≤ base) (hb2 : base ≤ max_interval c)
    (hj1 : -((c.min_delay : ℚ) / 2) ≤ jitter) (hj2 : jitter ≤ (c.min_delay : ℚ) / 2)
    (helapsed : now - t < (min_interval c : ℚ)) :
    should_post_tweet c (some t) now base jitter = false ∧
      should_post_tweet c none now base jitter = true := by
  constructor
  · have hfloor : (min_interval c : ℚ) ≤ get_next_tweet_delay c base jitter :=
      le_max_left _ _
    have : ¬ (now - t ≥ get_next_tweet_delay c base jitter) := by linarith
    simp [should_post_tweet, this]
  · rfl

/-- Witness for C3: config `⟨2, 20⟩`, last tweet at `t = 0`, `now = 100`
(elapsed `100 < 1800 = min_interval`), draw `base = 2000`, `jitter = 5`. -/
theorem should_post_tweet_spec_witness :
    should_post_tweet ⟨2, 20⟩ (some 0) 100 2000 5 = false ∧
      should_post_tweet ⟨2, 20⟩ none 100 2000 5 = true :=
  should_post_tweet_spec ⟨2, 20⟩ 0 100 2000 5 (by decide) (by decide)
    (by norm_num) (by norm_num) (by norm_num [min_interval])

end ContinuousTwitterBot

namespace RedditHandler

/-- Thread-local handler state (src/platforms/reddit/handler.py).
`transaction_count`, `connection_active` and `last_transaction_id` are the
fields set by `_init_thread_state` (lines 69-74); Python integers are
modelled by `ℤ` since `max(0, transaction_count - 1)` clamps an integer.
`commits` and `rollbacks` log the effects `conn.commit()` / `conn.rollback()`
issued on the thread-local connection.  The `connection_thread_id` field is
omitted: this embedding models the execution of a single thread, where the
field never differs from the current thread. -/
structure ThreadState where
  transaction_count : ℤ
  connection_active : Bool
  last_transaction_id : ℤ
  commits : ℕ
  rollbacks : ℕ
deriving DecidableEq

/-- `_init_thread_state` (lines 69-74). -/
def init_thread_state (st : ThreadState) : ThreadState :=
  { st with transaction_count := 0, connection_active := false,
            last_transaction_id := 0 }

/-- Entry of the `get_db_connection` context manager (lines 117-125):
`next_transaction_id` (lines 76-82) increments `last_transaction_id`, then
`transaction_count` is incremented. -/
def scope_enter (st : ThreadState) : ThreadState :=
  { st with last_transaction_id := st.last_transaction_id + 1,
            transaction_count := st.transaction_count + 1 }

/-- The `finally` block of `get_db_connection` (lines 142-149):
`transaction_count = max(0, transaction_count - 1)`, and when the counter
reaches zero the connection is marked inactive. -/
def scope_finally (st : ThreadState) : ThreadState :=
  let c := max 0 (st.transaction_count - 1)
  { st with transaction_count := c,
            connection_active := if c = 0 then false else st.connection_active }

/-- The `get_db_connection` context manager (lines 114-149) around a scoped
operation `body`.  `body` receives the state after entry and returns its
final state together with `none` (normal completion) or `some e` (the
exception it raised).  On normal completion the connection is committed; on
an exception it is rolled back and the same exception is re-raised (returned
as the second component); either way the `finally` block runs. -/
def get_db_connection (body : ThreadState → ThreadState × Option String)
    (st : ThreadState) : ThreadState × Option String :=
  match body (scope_enter st) with
  | (stb, none) =>
      (scope_finally { stb with commits := stb.commits + 1 }, none)
  | (stb, some e) =>
      (scope_finally { stb with rollbacks := stb.rollbacks + 1 }, some e)

/-- C4: for every scoped database operation entered through
`get_db_connection`: the body's outcome is propagated unmasked (same
exception, or none); the transaction counter is decremented (with the
`max 0` clamp) from its value at body exit; success commits exactly once and
performs no rollback; an exception rolls back exactly once and performs no
commit. -/
theorem get_db_connection_spec (st stb : ThreadState) (eo : Option String)
    (body : ThreadState → ThreadState × Option String)
    (h : body (scope_enter st) = (stb, eo)) :
    (get_db_connection body st).2 = eo ∧
      (get_db_connection body st).1.transaction_count
        = max 0 (stb.transaction_count - 1) ∧
      (eo = none →
        (get_db_connection body st).1.commits = stb.commits + 1 ∧
        (get_db_connection body st).1.rollbacks = stb.rollbacks) ∧
      (∀ e, eo = some e →
        (get_db_connection body st).1.rollbacks = stb.rollbacks + 1 ∧
        (get_db_connection body st).1.commits = stb.commits) := by
  cases eo with
  | none =>
      simp [get_db_connection, h, scope_finally]
  | some e =>
      simp [get_db_connection, h, scope_finally]

/-- Witness for C4: a body that raises `"boom"` from the zero state.  The
exception is re-raised, the counter is decremented back to zero, and a
rollback (not a commit) is recorded. -/
theorem get_db_connection_spec_witness :
    (get_db_connection (fun s => (s, some "boom")) ⟨0, false, 0, 0, 0⟩).2 = some "boom" ∧
      (get_db_connection (fun s => (s, some "boom")) ⟨0, false, 0, 0, 0⟩).1.transaction_count
        = max 0 ((scope_enter ⟨0, false, 0, 0, 0⟩).transaction_count - 1) ∧
      (some "boom" = none →
        (get_db_connection (fun s => (s, some "boom")) ⟨0, false, 0, 0, 0⟩).1.commits
          = (scope_enter ⟨0, false, 0, 0, 0⟩).commits + 1 ∧
        (get_db_connection (fun s => (s, some "boom")) ⟨0, false, 0, 0, 0⟩).1.rollbacks
          = (scope_enter ⟨0, false, 0, 0, 0⟩).rollbacks) ∧
      (∀ e, some "boom" = some e →
        (get_db_connection (fun s => (s, some "boom")) ⟨0, false, 0, 0, 0⟩).1.rollbacks
          = (scope_enter ⟨0, false, 0, 0, 0⟩).rollbacks + 1 ∧
        (get_db_connection (fun s => (s, some "boom")) ⟨0, false, 0, 0, 0⟩).1.commits
          = (scope_enter ⟨0, false, 0, 0, 0⟩).commits) :=
  get_db_connection_spec ⟨0, false, 0, 0, 0⟩ (scope_enter ⟨0, false, 0, 0, 0⟩)
    (some "boom") (fun s => (s, some "boom")) rfl

/-- A well-nested program of scoped database operations: `done` is the empty
program, `scope inner rest` enters one `get_db_connection` scope whose body
runs `inner`, then continues with `rest`.  This models any sequence of
nested or sequential scoped operations that all complete normally. -/
inductive ScopedOps where
  | done : ScopedOps
  | scope : ScopedOps → ScopedOps → ScopedOps

/-- Run a well-nested program of scoped operations through
`get_db_connection`, every body completing normally. -/
def run_scoped : ScopedOps → ThreadState → ThreadState
  | .done, st => st
  | .scope inner rest, st =>
      run_scoped rest (get_db_connection (fun s => (run_scoped inner s, none)) st).1

/-- The sequence of `transaction_count` values observed at every intermediate
point of `run_scoped`: after each scope entry and after each scope exit. -/
def counter_trace : ScopedOps → ThreadState → List ℤ
  | .done, _ => []
  | .scope inner rest, st =>
      let st1 := scope_enter st
      let stb := run_scoped inner st1
      let stc := scope_finally { stb with commits := stb.commits + 1 }
      (st1.transaction_count :: counter_trace inner st1)
        ++ stc.transaction_count :: counter_trace rest stc

/-- `counter_trace` observes the same execution that `run_scoped` performs:
the state after a `scope inner rest` step is the `finally`-adjusted state
used by the trace. -/
theorem run_scoped_scope (inner rest : ScopedOps) (st : ThreadState) :
    run_scoped (.scope inner rest) st
      = run_scoped rest
          (scope_finally
            { run_scoped inner (scope_enter st) with
                commits := (run_scoped inner (scope_enter st)).commits + 1 }) := by
  simp [run_scoped, get_db_connection]

/-- Helper for C9: a well-nested run started at a nonnegative counter keeps
the counter nonnegative at every intermediate point and restores it exactly. -/
theorem run_scoped_counter (ops : ScopedOps) (st : ThreadState)
    (h : 0 ≤ st.transaction_count) :
    (run_scoped ops st).transaction_count = st.transaction_count ∧
      ∀ c ∈ counter_trace ops st, 0 ≤ c := by
  induction ops generalizing st with
  | done => exact ⟨rfl, by simp [counter_trace]⟩
  | scope inner rest ih_inner ih_rest =>
      have h1 : 0 ≤ (scope_enter st).transaction_count := by
        simp [scope_enter]; omega
      obtain ⟨hinner_eq, hinner_tr⟩ := ih_inner (scope_enter st) h1
      set stb := run_scoped inner (scope_enter st) with hstb
      have hstb_count : stb.transaction_count = st.transaction_count + 1 := by
        rw [hinner_eq]; simp [scope_enter]
      set stc := scope_finally { stb with commits := stb.commits + 1 } with hstc
      have hstc_count : stc.transaction_count = st.transaction_count := by
        simp [hstc, scope_finally, hstb_count]
        omega
      have h2 : 0 ≤ stc.transaction_count := by rw [hstc_count]; exact h
      obtain ⟨hrest_eq, hrest_tr⟩ := ih_rest stc h2
      constructor
      · rw [run_scoped_scope, ← hstc, hrest_eq, hstc_count]
      · intro c hc
        simp only [counter_trace, ← hstb, ← hstc, List.mem_append, List.mem_cons] at hc
        rcases hc with (hc | hc) | hc | hc
        · subst hc; simp [scope_enter]; omega
        · exact hinner_tr c hc
        · subst hc; rw [hstc_count]; exact h
        · exact hrest_tr c hc

/-- C9: starting from the initialized thread state (counter `0`), any
sequence of nested or sequential scoped operations that all complete leaves
the transaction counter at exactly `0`, and at no intermediate point does the
counter drop below zero. -/
theorem transaction_count_never_negative (ops : ScopedOps) (st : ThreadState)
    (h : st.transaction_count = 0) :
    (run_scoped ops st).transaction_count = 0 ∧
      ∀ c ∈ counter_trace ops st, 0 ≤ c := by
  have h0 : 0 ≤ st.transaction_count := by omega
  obtain ⟨heq, htr⟩ := run_scoped_counter ops st h0
  exact ⟨by rw [heq, h], htr⟩

/-- Witness for C9: two sequential scopes, the first containing a nested
scope, starting from the freshly initialized state. -/
theorem transaction_count_never_negative_witness :
    (run_scoped (.scope (.scope .done .done) (.scope .done .done))
        ⟨0, false, 0, 0, 0⟩).transaction_count = 0 ∧
      ∀ c ∈ counter_trace (.scope (.scope .done .done) (.scope .done .done))
          ⟨0, false, 0, 0, 0⟩, 0 ≤ c :=
  transaction_count_never_negative (.scope (.scope .done .done) (.scope .done .done))
    ⟨0, false, 0, 0, 0⟩ rfl

end RedditHandler

namespace PersonalityManager

/-- A personality profile (src/utils/personality_manager.py; one parsed
personality JSON file).  `platform_settings` records the platform keys of
the profile's `platform_settings` dict (only key membership is consulted by
the selection functions); `style_post` / `style_chat` are
`style['post']` / `style['chat']`.  Prompt-example fields
(`postExamples`, `messageExamples`) are used only inside prompt text and are
not modelled. -/
structure Personality where
  name : String
  bio : List String
  knowledge : List String
  style_post : List String
  style_chat : List String
  platform_settings : List String
deriving DecidableEq

/-- Python `str.endswith(suffix)` (used as `filename.endswith('.json')`). -/
def endswith (s suffix : String) : Bool :=
  suffix.data.isSuffixOf s.data

/-- `load_personalities` (lines 57-71).  The directory listing of
`personalities/` is modelled as `none` when the directory is missing
(`os.listdir` raises `FileNotFoundError`, which propagates — the
constructor has no handler) and otherwise as the list of
`(filename, parsed content)` pairs.  Files whose name does not end in
`.json` are skipped; each loaded personality is stored under its `name`
key.  The config-driven rewrite of `settings['subreddits']` inside a
personality's platform settings does not add or remove platform keys and is
not modelled.  Note: the function performs no emptiness check on the
result. -/
def load_personalities (listing : Option (List (String × Personality))) :
    Except String (List (String × Personality)) :=
  match listing with
  | none => .error "FileNotFoundError: personalities directory missing"
  | some files =>
      .ok ((files.filter (fun f => endswith f.1 ".json")).map
             (fun f => (f.2.name, f.2)))

/-- C5 counterexample: with an existing but empty `personalities` directory,
`load_personalities` completes without raising and leaves the personality
map empty — the process continues running with zero personalities, contrary
to the claim that loading fails fatally whenever zero personalities load. -/
theorem load_personalities_empty_dir_no_error :
    load_personalities (some []) = .ok [] := rfl

/-- C5 (amended): loading raises (fatally) when the personalities directory
is missing; but when the directory exists and contains no `.json` files,
loading completes without error with an empty personality map and the
process continues. -/
theorem load_personalities_fatal_only_when_dir_missing
    (files : List (String × Personality))
    (h : ∀ f ∈ files, endswith f.1 ".json" = false) :
    load_personalities none
        = .error "FileNotFoundError: personalities directory missing" ∧
      load_personalities (some files) = .ok [] := by
  refine ⟨rfl, ?_⟩
  have hfilter : files.filter (fun f => endswith f.1 ".json") = [] := by
    rw [List.filter_eq_nil_iff]
    intro a ha
    simp [h a ha]
  simp [load_personalities, hfilter]

/-- Witness for amended C5: a directory containing only `README.md`. -/
theorem load_personalities_fatal_only_when_dir_missing_witness :
    load_personalities none
        = .error "FileNotFoundError: personalities directory missing" ∧
      load_personalities
          (some [("README.md", ⟨"doc", [], [], [], [], []⟩)]) = .ok [] :=
  load_personalities_fatal_only_when_dir_missing
    [("README.md", ⟨"doc", [], [], [], [], []⟩)] (by decide)

/-- The eligible-and-different candidate list built inside
`get_contrasting_personality` (lines 100-105): entries of the personality
dict whose key differs from `current_personality` and whose
`platform_settings` contain `platform`. -/
def contrasting_candidates (personalities : List (String × Personality))
    (current_personality platform : String) : List Personality :=
  (personalities.filter (fun np =>
      decide (np.1 ≠ current_personality)
        && np.2.platform_settings.contains platform)).map Prod.snd

/-- `get_contrasting_personality` (lines 98-106).  The personality dict is
modelled as an association list (keys unique, each key being the stored
personality's `name` — the invariant `load_personalities` establishes).
`random.choice(valid_personalities)` is modelled by an arbitrary draw index
`choice` reduced modulo the candidate count; the empty-candidates fallback
`self.personalities[current_personality]` is a dict lookup whose `KeyError`
is modelled by `none`. -/
def get_contrasting_personality (personalities : List (String × Personality))
    (current_personality platform : String) (choice : ℕ) : Option Personality :=
  if h : contrasting_candidates personalities current_personality platform = [] then
    personalities.lookup current_personality
  else
    some ((contrasting_candidates personalities current_personality platform).get
      ⟨choice % (contrasting_candidates personalities current_personality platform).length,
        Nat.mod_lt choice (List.length_pos.mpr h)⟩)

/-- C6: on a registry whose keys are the stored personalities' names and
which contains the current personality, `get_contrasting_personality` always
returns a personality; it never returns one named by the excluded current
name while another eligible personality exists, and when no other
personality is eligible for the platform it returns the current personality
itself (total — no looping, no failure). -/
theorem get_contrasting_personality_spec
    (personalities : List (String × Personality))
    (current platform : String) (pcur : Personality)
    (hkeys : ∀ np ∈ personalities, np.1 = np.2.name)
    (hcur : personalities.lookup current = some pcur) :
    ∀ choice, ∃ p,
      get_contrasting_personality personalities current platform choice = some p ∧
        (contrasting_candidates personalities current platform ≠ [] →
          p.name ≠ current) ∧
        (contrasting_candidates personalities current platform = [] →
          p = pcur) := by
  intro choice
  have hall : ∀ p ∈ contrasting_candidates personalities current platform,
      p.name ≠ current := by
    intro p hp
    simp only [contrasting_candidates, List.mem_map] at hp
    obtain ⟨np, hnp, hpeq⟩ := hp
    rw [List.mem_filter] at hnp
    obtain ⟨hnp_mem, hnp_pred⟩ := hnp
    have hne : np.1 ≠ current := by
      have := Bool.and_elim_left hnp_pred
      simpa using this
    rw [← hpeq, ← hkeys np hnp_mem]
    exact hne
  by_cases h : contrasting_candidates personalities current platform = []
  · refine ⟨pcur, ?_, fun hne => absurd h hne, fun _ => rfl⟩
    unfold get_contrasting_personality
    rw [dif_pos h]
    exact hcur
  · refine ⟨(contrasting_candidates personalities current platform).get
        ⟨choice % (contrasting_candidates personalities current platform).length,
          Nat.mod_lt choice (List.length_pos.mpr h)⟩, ?_, ?_, ?_⟩
    · unfold get_contrasting_personality
      rw [dif_neg h]
    · intro _
      exact hall _ (List.get_mem _ _ _)
    · intro habs; exact absurd habs h

/-- Witness for C6: registry with personalities `a` and `b`, both eligible
for `reddit`, excluding `a`, draw index `0`. -/
theorem get_contrasting_personality_spec_witness :
    ∃ p,
      get_contrasting_personality
          [("a", ⟨"a", [], [], [], [], ["reddit"]⟩),
           ("b", ⟨"b", [], [], [], [], ["reddit"]⟩)] "a" "reddit" 0 = some p ∧
        (contrasting_candidates
            [("a", ⟨"a", [], [], [], [], ["reddit"]⟩),
             ("b", ⟨"b", [], [], [], [], ["reddit"]⟩)] "a" "reddit" ≠ [] →
          p.name ≠ "a") ∧
        (contrasting_candidates
            [("a", ⟨"a", [], [], [], [], ["reddit"]⟩),
             ("b", ⟨"b", [], [], [], [], ["reddit"]⟩)] "a" "reddit" = [] →
          p = ⟨"a", [], [], [], [], ["reddit"]⟩) :=
  get_contrasting_personality_spec
    [("a", ⟨"a", [], [], [], [], ["reddit"]⟩),
     ("b", ⟨"b", [], [], [], [], ["reddit"]⟩)] "a" "reddit"
    ⟨"a", [], [], [], [], ["reddit"]⟩ (by decide) (by decide) 0

/-- `get_random_personality` (lines 73-79): uniform choice among the
personalities whose `platform_settings` contain `platform`; `None` when no
personality supports the platform.  The random draw is modelled by `choice`
as in `get_contrasting_personality`. -/
def get_random_personality (personalities : List (String × Personality))
    (platform : String) (choice : ℕ) : Option Personality :=
  let valid := (personalities.filter
      (fun np => np.2.platform_settings.contains platform)).map Prod.snd
  if h : valid = [] then none
  else some (valid.get ⟨choice % valid.length,
    Nat.mod_lt choice (List.length_pos.mpr h)⟩)

end PersonalityManager

namespace RedditHandler

open PersonalityManager

/-- A row of the `posts` table (src/utils/db_init.py lines 60-71): the
schema declares `post_id TEXT UNIQUE` and `UNIQUE(platform, post_id)`.
`personality_id`/`personality_context` are nullable (the existing-post
insert leaves them NULL).  Timestamps are seconds as rationals. -/
structure PostRow where
  platform : String
  post_id : String
  username : String
  subreddit : String
  post_title : String
  post_content : String
  personality_id : Option String
  personality_context : Option String
  timestamp : ℚ
deriving DecidableEq

/-- A row of the `comments` table (db_init lines 76-87):
`comment_id TEXT UNIQUE` and `UNIQUE(platform, comment_id)`. -/
structure CommentRow where
  platform : String
  username : String
  comment_id : String
  post_id : String
  comment_content : String
  personality_id : String
  personality_context : String
  timestamp : ℚ
deriving DecidableEq

/-- A row of the `platform_stats` table (db_init lines 49-55). -/
structure StatsRow where
  platform : String
  total_interactions : ℤ
  total_posts : ℤ
  total_comments : ℤ
  last_activity : Option ℚ
deriving DecidableEq

/-- The mutable database state visible to the Reddit cycle. -/
structure DB where
  posts : List PostRow
  comments : List CommentRow
  platform_stats : List StatsRow
deriving DecidableEq

/-- A plain `INSERT` into `posts`: sqlite raises `IntegrityError` when the
`post_id UNIQUE` or `UNIQUE(platform, post_id)` constraint is violated,
otherwise appends the row. -/
def insert_post (db : DB) (r : PostRow) : Except String DB :=
  if db.posts.any (fun q => q.post_id == r.post_id
      || (q.platform == r.platform && q.post_id == r.post_id)) then
    .error "IntegrityError: UNIQUE constraint failed: posts.post_id"
  else
    .ok { db with posts := db.posts ++ [r] }

/-- A plain `INSERT` into `comments`, guarded by `comment_id UNIQUE` and
`UNIQUE(platform, comment_id)`. -/
def insert_comment (db : DB) (r : CommentRow) : Except String DB :=
  if db.comments.any (fun q => q.comment_id == r.comment_id
      || (q.platform == r.platform && q.comment_id == r.comment_id)) then
    .error "IntegrityError: UNIQUE constraint failed: comments.comment_id"
  else
    .ok { db with comments := db.comments ++ [r] }

/-- The `UPDATE platform_stats SET total_interactions = total_interactions
+ 1, last_activity = ? WHERE platform = 'reddit'` statement
(handler lines 336-340). -/
def update_platform_stats_interaction (db : DB) (now : ℚ) : DB :=
  { db with platform_stats := db.platform_stats.map (fun st =>
      if st.platform == "reddit" then
        { st with total_interactions := st.total_interactions + 1,
                  last_activity := some now }
      else st) }

/-- An external Reddit submission (praw `Submission`): stable external id,
author name, title and self-text. -/
structure Submission where
  id : String
  author : String
  title : String
  selftext : String
deriving DecidableEq

/-- Model of `json.dumps({'name': ..., 'style': [...]})` — an opaque
serialised snapshot; no claim inspects the produced text. -/
def dumps_name_style (name : String) (style : List String) : String :=
  "name=" ++ name ++ ";style=" ++ String.intercalate "," style

/-- The effectful environment of one `process_subreddits` cycle.  External
collaborators (content generator, praw calls) and random draws are passed
as oracles: `gen_post` models `generate_post_content` (which catches its
own exceptions and returns `None`/text), `gen_comment` models
`generate_comment_content` (same shape), `gen_title` models
`generate_title` (total: it has an internal fallback), `should_reply`
models the `_should_reply` Bernoulli draw made in each
`_process_comments` call, `post_choice`/`comment_choice` model the
`random.choice` draws of `get_random_personality`, and
`subreddit_result`/`flair_result`/`submit_result`/`reply_result` model the
praw calls, `.error` being a raised exception. -/
structure RedditEnv where
  active_personality : Option Personality
  personalities : List (String × Personality)
  post_choice : ℕ
  comment_choice : Submission → ℕ
  should_reply : Submission → Bool
  gen_post : Personality → Option String
  gen_comment : Personality → String → String → Option String
  gen_title : String → Personality → String
  subreddit_result : String → Except String Unit
  flair_result : String → Except String (Option String)
  submit_result : String → String → Option String → Except String Submission
  reply_result : Submission → String → Except String String

/-- `_process_comments` (handler lines 301-345) for `forced_personality =
forced`.  Personality selection is `forced or active or random`; without a
forced personality a failed `_should_reply` draw skips; a `None` or empty
generated comment skips; then the `try` block builds the signature
(`personality['bio'][0]` raises `IndexError` on an empty bio — caught by
the `except` at line 344), replies externally, inserts the comment row and
bumps `platform_stats`.  Every exception inside the `try` is caught and
logged, leaving the database as it was at the raise point. -/
def process_comments (env : RedditEnv) (s : Submission) (forced : Option Personality)
    (now : ℚ) (db : DB) : DB :=
  match forced <|> env.active_personality <|>
      get_random_personality env.personalities "reddit" (env.comment_choice s) with
  | none => db
  | some personality =>
    if forced.isNone && !env.should_reply s then db
    else
      match env.gen_comment personality s.title s.selftext with
      | none => db
      | some text =>
        if text.isEmpty then db
        else
          match personality.bio.head? with
          | none => db
          | some bio0 =>
            let full := "*Insights from **" ++ personality.name ++ "** - " ++ bio0
                ++ "*\n\n" ++ text
            match env.reply_result s full with
            | .error _ => db
            | .ok cid =>
              match insert_comment db ⟨"reddit", personality.name, cid, s.id, full,
                  personality.name,
                  dumps_name_style personality.name personality.style_chat, now⟩ with
              | .error _ => db
              | .ok db1 => update_platform_stats_interaction db1 now

/-- One iteration of the existing-posts loop (handler lines 263-286):
`SELECT id FROM posts WHERE post_id = ?`; when no row is found, the
per-item `try` inserts the post row and processes comments, and its
`except ... continue` (lines 281-283) swallows any exception so the cycle
continues with the next item. -/
def process_existing_submission (env : RedditEnv) (subreddit_name : String)
    (now : ℚ) (db : DB) (s : Submission) : DB :=
  if db.posts.any (fun r => r.post_id == s.id) then db
  else
    match insert_post db ⟨"reddit", s.id, s.author, subreddit_name, s.title,
        s.selftext, none, none, now⟩ with
    | .error _ => db
    | .ok db1 => process_comments env s none now db1

/-- The new-post branch of `process_subreddits` (handler lines 236-260).
The second component records whether an exception escaped this branch (a
praw or sqlite failure after content generation), in which case the
enclosing per-subreddit `try` (line 232 / except line 288) aborts the rest
of the subreddit's processing. -/
def process_new_post (env : RedditEnv) (subreddit_name : String) (now : ℚ)
    (db : DB) : DB × Bool :=
  match env.active_personality <|>
      get_random_personality env.personalities "reddit" env.post_choice with
  | none => (db, false)
  | some personality =>
    match env.gen_post personality with
    | none => (db, false)
    | some post_content =>
      if post_content.isEmpty then (db, false)
      else
        let title := env.gen_title post_content personality
        match env.flair_result subreddit_name with
        | .error _ => (db, true)
        | .ok flair_id =>
          match env.submit_result title post_content flair_id with
          | .error _ => (db, true)
          | .ok submission =>
            match insert_post db ⟨"reddit", submission.id, submission.author,
                subreddit_name, title, post_content, some personality.name,
                some (dumps_name_style personality.name personality.style_post),
                now⟩ with
            | .error _ => (db, true)
            | .ok db1 => (process_comments env submission none now db1, false)

/-- Processing of one configured subreddit (the body of the per-subreddit
`try` at handler lines 232-286, whose `except`/`continue` at 288-290 makes
it total): access the subreddit, run the new-post branch, then — unless an
exception aborted the branch — scan the recent submissions. -/
def process_subreddit (env : RedditEnv) (subreddit_name : String)
    (existing : List Submission) (now : ℚ) (db : DB) : DB :=
  match env.subreddit_result subreddit_name with
  | .error _ => db
  | .ok _ =>
    let result := process_new_post env subreddit_name now db
    if result.2 then result.1
    else existing.foldl (process_existing_submission env subreddit_name now) result.1

/-- `process_subreddits` (handler lines 217-299): one platform cycle over
the configured subreddits, each paired with the recent submissions fetched
for it.  The surrounding `get_db_connection` commit does not change the
logical table state. -/
def process_subreddits (env : RedditEnv) (targets : List (String × List Submission))
    (now : ℚ) (db : DB) : DB :=
  targets.foldl (fun d t => process_subreddit env t.1 t.2 now d) db

/-- C1: when exactly one `posts` row already carries an external post id,
re-ingesting a submission with that id during a cycle is a no-op: the
database is unchanged, exactly one row for that id remains, and the loop
simply continues with the remaining submissions (no exception propagates —
the embedding is a total function and the duplicate branch returns the
state unchanged). -/
theorem duplicate_post_ingest_noop (env : RedditEnv) (subreddit_name : String)
    (now : ℚ) (db : DB) (s : Submission) (rest : List Submission)
    (h : db.posts.countP (fun r => r.post_id == s.id) = 1) :
    process_existing_submission env subreddit_name now db s = db ∧
      ((process_existing_submission env subreddit_name now db s).posts.countP
          (fun r => r.post_id == s.id)) = 1 ∧
      (s :: rest).foldl (process_existing_submission env subreddit_name now) db
        = rest.foldl (process_existing_submission env subreddit_name now) db := by
  have hex : ∃ r ∈ db.posts, (r.post_id == s.id) = true := by
    by_contra hno
    push_neg at hno
    have hzero : db.posts.countP (fun r => r.post_id == s.id) = 0 :=
      List.countP_eq_zero.mpr (by intro a ha; simpa using hno a ha)
    omega
  have hany : db.posts.any (fun r => r.post_id == s.id) = true :=
    List.any_eq_true.mpr hex
  have h1 : process_existing_submission env subreddit_name now db s = db := by
    unfold process_existing_submission
    rw [if_pos hany]
  exact ⟨h1, by rw [h1]; exact h, by rw [List.foldl_cons, h1]⟩

/-- An inert environment for concrete witnesses: no personalities, every
generator fails, every external call raises. -/
def witnessEnv : RedditEnv where
  active_personality := none
  personalities := []
  post_choice := 0
  comment_choice := fun _ => 0
  should_reply := fun _ => false
  gen_post := fun _ => none
  gen_comment := fun _ _ _ => none
  gen_title := fun c _ => c
  subreddit_result := fun _ => .ok ()
  flair_result := fun _ => .ok none
  submit_result := fun _ _ _ => .error "offline"
  reply_result := fun _ _ => .error "offline"

/-- A one-post database used by the concrete witnesses. -/
def witnessDB : DB where
  posts := [⟨"reddit", "abc123", "alice", "FlavumHiveAI", "t", "c", none, none, 0⟩]
  comments := []
  platform_stats := [⟨"reddit", 0, 0, 0, none⟩]

/-- Witness for C1: re-ingesting the already stored submission `abc123`. -/
theorem duplicate_post_ingest_noop_witness :
    process_existing_submission witnessEnv "FlavumHiveAI" 0 witnessDB
        ⟨"abc123", "alice", "t", "c"⟩ = witnessDB ∧
      ((process_existing_submission witnessEnv "FlavumHiveAI" 0 witnessDB
          ⟨"abc123", "alice", "t", "c"⟩).posts.countP
            (fun r => r.post_id == "abc123")) = 1 ∧
      ([⟨"abc123", "alice", "t", "c"⟩] : List Submission).foldl
          (process_existing_submission witnessEnv "FlavumHiveAI" 0) witnessDB
        = ([] : List Submission).foldl
            (process_existing_submission witnessEnv "FlavumHiveAI" 0) witnessDB :=
  duplicate_post_ingest_noop witnessEnv "FlavumHiveAI" 0 witnessDB
    ⟨"abc123", "alice", "t", "c"⟩ [] (by decide)

/-- When the comment generator fails on every call, `_process_comments`
leaves the database untouched. -/
theorem process_comments_gen_fail (env : RedditEnv) (s : Submission)
    (forced : Option Personality) (now : ℚ) (db : DB)
    (hcomment : ∀ p t c, env.gen_comment p t c = none) :
    process_comments env s forced now db = db := by
  unfold process_comments
  cases forced <|> env.active_personality <|>
      get_random_personality env.personalities "reddit" (env.comment_choice s) with
  | none => rfl
  | some p => simp [hcomment p s.title s.selftext]

/-- A successful post insert changes only the `posts` table. -/
theorem insert_post_stats (db : DB) (r : PostRow) (db1 : DB)
    (h : insert_post db r = .ok db1) : db1.platform_stats = db.platform_stats := by
  unfold insert_post at h
  split at h
  · simp at h
  · simp only [Except.ok.injEq] at h
    rw [← h]

/-- When the comment generator always fails, one existing-posts loop
iteration never touches `platform_stats`. -/
theorem process_existing_submission_stats (env : RedditEnv) (sub : String)
    (now : ℚ) (db : DB) (s : Submission)
    (hcomment : ∀ p t c, env.gen_comment p t c = none) :
    (process_existing_submission env sub now db s).platform_stats
      = db.platform_stats := by
  unfold process_existing_submission
  split
  · rfl
  · cases hin : insert_post db ⟨"reddit", s.id, s.author, sub, s.title,
        s.selftext, none, none, now⟩ with
    | error e => rfl
    | ok db1 =>
        show (process_comments env s none now db1).platform_stats = db.platform_stats
        rw [process_comments_gen_fail env s none now db1 hcomment]
        exact insert_post_stats db _ db1 hin

/-- The existing-posts loop preserves `platform_stats` when the comment
generator always fails. -/
theorem foldl_existing_stats (env : RedditEnv) (sub : String) (now : ℚ)
    (hcomment : ∀ p t c, env.gen_comment p t c = none)
    (existing : List Submission) :
    ∀ db : DB,
      (existing.foldl (process_existing_submission env sub now) db).platform_stats
        = db.platform_stats := by
  induction existing with
  | nil => intro db; rfl
  | cons s rest ih =>
      intro db
      rw [List.foldl_cons, ih,
        process_existing_submission_stats env sub now db s hcomment]

/-- When the post generator always fails, the new-post branch does nothing
and does not abort the subreddit. -/
theorem process_new_post_gen_fail (env : RedditEnv) (sub : String) (now : ℚ)
    (db : DB) (hpost : ∀ p, env.gen_post p = none) :
    process_new_post env sub now db = (db, false) := by
  unfold process_new_post
  cases env.active_personality <|>
      get_random_personality env.personalities "reddit" env.post_choice with
  | none => rfl
  | some p => simp [hpost p]

/-- One subreddit's processing preserves `platform_stats` when both
generators always fail. -/
theorem process_subreddit_stats (env : RedditEnv) (sub : String)
    (existing : List Submission) (now : ℚ) (db : DB)
    (hpost : ∀ p, env.gen_post p = none)
    (hcomment : ∀ p t c, env.gen_comment p t c = none) :
    (process_subreddit env sub existing now db).platform_stats
      = db.platform_stats := by
  unfold process_subreddit
  cases env.subreddit_result sub with
  | error e => rfl
  | ok _ =>
      rw [process_new_post_gen_fail env sub now db hpost]
      exact foldl_existing_stats env sub now hcomment existing db

/-- C7: a platform cycle in which the content generator fails on every call
(post generation and comment generation both return failure) leaves the
`platform_stats` table completely unchanged — no counter increment, no
`last_activity` update — and the cycle completes normally (the embedding is
a total function: every per-item exception is absorbed where the code
catches it). -/
theorem generator_failure_preserves_stats (env : RedditEnv)
    (targets : List (String × List Submission)) (now : ℚ) (db : DB)
    (hpost : ∀ p, env.gen_post p = none)
    (hcomment : ∀ p t c, env.gen_comment p t c = none) :
    (process_subreddits env targets now db).platform_stats
      = db.platform_stats := by
  unfold process_subreddits
  induction targets generalizing db with
  | nil => rfl
  | cons t rest ih =>
      rw [List.foldl_cons, ih, process_subreddit_stats env t.1 t.2 now db hpost hcomment]

/-- Witness for C7: the inert environment (whose generators always fail)
processing one subreddit with one unseen submission. -/
theorem generator_failure_preserves_stats_witness :
    (process_subreddits witnessEnv
        [("FlavumHiveAI", [⟨"zzz9", "bob", "title", "body"⟩])] 0
        witnessDB).platform_stats = witnessDB.platform_stats :=
  generator_failure_preserves_stats witnessEnv
    [("FlavumHiveAI", [⟨"zzz9", "bob", "title", "body"⟩])] 0 witnessDB
    (fun _ => rfl) (fun _ _ _ => rfl)

end RedditHandler

namespace TwitterHandler

/-- `generate_tweet_content` (src/platforms/twitter/handler.py lines
1108-1132).  Text is a list of characters (Python slicing is per
character).  `promptResult` models the prompt-building code inside the
`try` (personality field accesses can raise — caught, returning `None`);
`content` models the `get_openai_response` result (an `Optional[str]`, the
function never raises).  The return is `content[:280] if content else
None`: `None` and the empty string are falsy. -/
def generate_tweet_content (promptResult : Except String Unit)
    (content : Option (List Char)) : Option (List Char) :=
  match promptResult with
  | .error _ => none
  | .ok _ =>
    match content with
    | none => none
    | some cs => if cs.isEmpty then none else some (cs.take 280)

/-- `generate_reply_content` (lines 1134-1157): same shape as
`generate_tweet_content`. -/
def generate_reply_content (promptResult : Except String Unit)
    (content : Option (List Char)) : Option (List Char) :=
  match promptResult with
  | .error _ => none
  | .ok _ =>
    match content with
    | none => none
    | some cs => if cs.isEmpty then none else some (cs.take 280)

/-- C10: for every personality/context input (any prompt outcome, any
generator output), `generate_tweet_content` and `generate_reply_content`
return either `none` or a string of **at most 280 characters** — never a
longer string. -/
theorem generated_content_at_most_280 (pr1 pr2 : Except String Unit)
    (c1 c2 : Option (List Char)) :
    (generate_tweet_content pr1 c1 = none ∨
      ∃ cs, generate_tweet_content pr1 c1 = some cs ∧ cs.length ≤ 280) ∧
      (generate_reply_content pr2 c2 = none ∨
        ∃ cs, generate_reply_content pr2 c2 = some cs ∧ cs.length ≤ 280) := by
  constructor
  · cases pr1 with
    | error e => exact Or.inl rfl
    | ok u =>
        cases c1 with
        | none => exact Or.inl rfl
        | some cs =>
            by_cases h : cs.isEmpty
            · exact Or.inl (by simp [generate_tweet_content, h])
            · refine Or.inr ⟨cs.take 280, by simp [generate_tweet_content, h], ?_⟩
              simp
  · cases pr2 with
    | error e => exact Or.inl rfl
    | ok u =>
        cases c2 with
        | none => exact Or.inl rfl
        | some cs =>
            by_cases h : cs.isEmpty
            · exact Or.inl (by simp [generate_reply_content, h])
            · refine Or.inr ⟨cs.take 280, by simp [generate_reply_content, h], ?_⟩
              simp

end TwitterHandler

namespace DbUtils

/-- A naive Python `datetime` value (src/utils/db_utils.py stores
`datetime.now()` values, which are naive).  Fields carry the invariants the
`datetime` constructor enforces (`PyDatetime.valid`). -/
structure PyDatetime where
  year : ℕ
  month : ℕ
  day : ℕ
  hour : ℕ
  minute : ℕ
  second : ℕ
  microsecond : ℕ
deriving DecidableEq

/-- The range invariants of Python's `datetime` constructor
(`MINYEAR = 1 ≤ year ≤ 9999 = MAXYEAR`, etc.; `day ≤ 31` is the outer
bound of the month-dependent constraint). -/
def PyDatetime.valid (d : PyDatetime) : Prop :=
  1 ≤ d.year ∧ d.year ≤ 9999 ∧ 1 ≤ d.month ∧ d.month ≤ 12 ∧
    1 ≤ d.day ∧ d.day ≤ 31 ∧ d.hour ≤ 23 ∧ d.minute ≤ 59 ∧
    d.second ≤ 59 ∧ d.microsecond ≤ 999999

instance (d : PyDatetime) : Decidable d.valid := by
  unfold PyDatetime.valid
  infer_instance

/-- The decimal digit character for `k < 10`. -/
def digitChar (k : ℕ) : Char :=
  match k with
  | 0 => '0' | 1 => '1' | 2 => '2' | 3 => '3' | 4 => '4'
  | 5 => '5' | 6 => '6' | 7 => '7' | 8 => '8' | _ => '9'

/-- Numeric value of a digit character. -/
def digitVal (c : Char) : ℕ := c.toNat - 48

/-- ASCII decimal digit test. -/
def is_digit (c : Char) : Bool :=
  decide (48 ≤ c.toNat) && decide (c.toNat ≤ 57)

/-- Zero-padded fixed-width decimal rendering (`%0wd`), most significant
digit first; faithful for `n < 10 ^ w`. -/
def padChars : ℕ → ℕ → List Char
  | 0, _ => []
  | w + 1, n => digitChar (n / 10 ^ w) :: padChars w (n % 10 ^ w)

/-- `datetime.isoformat()` for a naive datetime (the format produced by
`adapt_datetime`): `YYYY-MM-DDTHH:MM:SS`, with `.ffffff` appended exactly
when the microsecond is nonzero (timespec `auto`). -/
def isoformat (d : PyDatetime) : List Char :=
  padChars 4 d.year ++ '-' :: (padChars 2 d.month ++ '-' :: (padChars 2 d.day
    ++ 'T' :: (padChars 2 d.hour ++ ':' :: (padChars 2 d.minute
    ++ ':' :: (padChars 2 d.second
    ++ (if d.microsecond = 0 then [] else '.' :: padChars 6 d.microsecond))))))

/-- `adapt_datetime` (db_utils.py lines 5-7): `dt.isoformat()`. -/
def adapt_datetime (d : PyDatetime) : List Char := isoformat d

/-- Read exactly `w` decimal digits, accumulating left to right; `none` on
a non-digit or premature end. -/
def parseDigits : ℕ → ℕ → List Char → Option (ℕ × List Char)
  | 0, acc, cs => some (acc, cs)
  | w + 1, acc, c :: cs =>
      if is_digit c then parseDigits w (10 * acc + digitVal c) cs else none
  | _ + 1, _, [] => none

/-- Consume one expected character. -/
def expectChar (c : Char) : List Char → Option (List Char)
  | x :: xs => if x = c then some xs else none
  | [] => none

/-- The time part `HH[:MM[:SS[.ffffff]]]` of `datetime.fromisoformat`
(omitted components default to zero, as in Python). -/
def parse_time (cs : List Char) : Option (ℕ × ℕ × ℕ × ℕ) :=
  Option.bind (parseDigits 2 0 cs) (fun hr =>
    if hr.2 = [] then some (hr.1, 0, 0, 0)
    else Option.bind (expectChar ':' hr.2) (fun r1 =>
      Option.bind (parseDigits 2 0 r1) (fun mr =>
        if mr.2 = [] then some (hr.1, mr.1, 0, 0)
        else Option.bind (expectChar ':' mr.2) (fun r3 =>
          Option.bind (parseDigits 2 0 r3) (fun sr =>
            if sr.2 = [] then some (hr.1, mr.1, sr.1, 0)
            else Option.bind (expectChar '.' sr.2) (fun r5 =>
              Option.bind (parseDigits 6 0 r5) (fun ur =>
                if ur.2 = [] then some (hr.1, mr.1, sr.1, ur.1)
                else none)))))))

/-- `datetime.fromisoformat` on naive-datetime text: `YYYY-MM-DD`, then
either end of input (midnight) or one arbitrary separator character
followed by the time part (Python ignores the character at index 10). -/
def fromisoformat (cs : List Char) : Option PyDatetime :=
  Option.bind (parseDigits 4 0 cs) (fun yr =>
    Option.bind (expectChar '-' yr.2) (fun r2 =>
      Option.bind (parseDigits 2 0 r2) (fun mr =>
        Option.bind (expectChar '-' mr.2) (fun r4 =>
          Option.bind (parseDigits 2 0 r4) (fun dr =>
            if dr.2 = [] then some ⟨yr.1, mr.1, dr.1, 0, 0, 0, 0⟩
            else Option.bind (parse_time dr.2.tail) (fun t =>
              some ⟨yr.1, mr.1, dr.1, t.1, t.2.1, t.2.2.1, t.2.2.2⟩))))))

/-- `convert_datetime` (db_utils.py lines 9-14): `datetime.fromisoformat`
with `ValueError`/`TypeError` turned into `None` — already the `Option`
shape of the parser.  `init_db_connection` (lines 16-20) registers
`adapt_datetime`/`convert_datetime` as the sqlite adapter/converter pair. -/
def convert_datetime (cs : List Char) : Option PyDatetime := fromisoformat cs

/-- Every digit below ten renders to a digit character that decodes back. -/
theorem digit_facts : ∀ k < 10,
    is_digit (digitChar k) = true ∧ digitVal (digitChar k) = k := by decide

/-- Fixed-width parse inverts fixed-width print, with any continuation. -/
theorem parse_pad (w : ℕ) : ∀ (acc n : ℕ) (rest : List Char), n < 10 ^ w →
    parseDigits w acc (padChars w n ++ rest) = some (acc * 10 ^ w + n, rest) := by
  induction w with
  | zero =>
      intro acc n rest h
      have hn : n = 0 := by
        have : (10 : ℕ) ^ 0 = 1 := by norm_num
        omega
      subst hn
      simp [padChars, parseDigits]
  | succ w ih =>
      intro acc n rest h
      have hp : 0 < 10 ^ w := pow_pos (by norm_num) w
      have hq : n / 10 ^ w < 10 := by
        rw [Nat.div_lt_iff_lt_mul hp]
        rw [pow_succ] at h
        omega
      have hr : n % 10 ^ w < 10 ^ w := Nat.mod_lt _ hp
      show parseDigits (w + 1) acc
          ((digitChar (n / 10 ^ w) :: padChars w (n % 10 ^ w)) ++ rest)
        = some (acc * 10 ^ (w + 1) + n, rest)
      rw [List.cons_append]
      show (if is_digit (digitChar (n / 10 ^ w)) then
            parseDigits w (10 * acc + digitVal (digitChar (n / 10 ^ w)))
              (padChars w (n % 10 ^ w) ++ rest)
          else none)
        = some (acc * 10 ^ (w + 1) + n, rest)
      rw [if_pos ((digit_facts _ hq).1), (digit_facts _ hq).2]
      rw [ih (10 * acc + n / 10 ^ w) (n % 10 ^ w) rest hr]
      have harith : (10 * acc + n / 10 ^ w) * 10 ^ w + n % 10 ^ w
          = acc * 10 ^ (w + 1) + n := by
        have hdm : n / 10 ^ w * 10 ^ w + n % 10 ^ w = n := Nat.div_add_mod' n (10 ^ w)
        calc (10 * acc + n / 10 ^ w) * 10 ^ w + n % 10 ^ w
            = acc * (10 ^ w * 10) + (n / 10 ^ w * 10 ^ w + n % 10 ^ w) := by ring
          _ = acc * 10 ^ (w + 1) + n := by rw [hdm, pow_succ]
      rw [harith]

/-- `parse_pad` with a zero accumulator. -/
theorem parse_pad0 (w n : ℕ) (rest : List Char) (h : n < 10 ^ w) :
    parseDigits w 0 (padChars w n ++ rest) = some (n, rest) := by
  rw [parse_pad w 0 n rest h]
  simp

/-- `parse_pad0` at the end of input. -/
theorem parse_pad0_nil (w n : ℕ) (h : n < 10 ^ w) :
    parseDigits w 0 (padChars w n) = some (n, []) := by
  have := parse_pad0 w n [] h
  simpa using this

/-- `expectChar` consumes its own character. -/
theorem expectChar_cons_self (c : Char) (xs : List Char) :
    expectChar c (c :: xs) = some xs := by
  simp [expectChar]

/-- C8: the registered encode/decode pair round-trips losslessly: decoding
the ISO-8601 text of any valid datetime yields the original datetime,
`convert_datetime (adapt_datetime dt) = dt`. -/
theorem convert_adapt_roundtrip (d : PyDatetime) (h : d.valid) :
    convert_datetime (adapt_datetime d) = some d := by
  obtain ⟨y, mo, da, hh, mi, ss, us⟩ := d
  obtain ⟨hy1, hy2, hm1, hm2, hd1, hd2, hh2, hmi2, hss2, hus2⟩ := h
  have hy : y < 10 ^ 4 := lt_of_le_of_lt hy2 (by norm_num)
  have hmo : mo < 10 ^ 2 := lt_of_le_of_lt hm2 (by norm_num)
  have hda : da < 10 ^ 2 := lt_of_le_of_lt hd2 (by norm_num)
  have hhh : hh < 10 ^ 2 := lt_of_le_of_lt hh2 (by norm_num)
  have hmi : mi < 10 ^ 2 := lt_of_le_of_lt hmi2 (by norm_num)
  have hss : ss < 10 ^ 2 := lt_of_le_of_lt hss2 (by norm_num)
  have hus : us < 10 ^ 6 := lt_of_le_of_lt hus2 (by norm_num)
  by_cases h0 : us = 0
  · subst h0
    have hiso : (if (0 : ℕ) = 0 then ([] : List Char) else '.' :: padChars 6 0) = [] :=
      if_pos rfl
    simp only [convert_datetime, adapt_datetime, fromisoformat, isoformat,
      parse_time, hiso, ite_true, List.append_nil]
    rw [parse_pad0 4 y _ hy, Option.bind]
    rw [expectChar_cons_self, Option.bind]
    rw [parse_pad0 2 mo _ hmo, Option.bind]
    rw [expectChar_cons_self, Option.bind]
    rw [parse_pad0 2 da _ hda, Option.bind]
    simp only [List.cons_ne_nil, if_neg, List.tail_cons, ne_eq,
      not_false_eq_true]
    rw [parse_pad0 2 hh _ hhh, Option.bind]
    simp only [List.cons_ne_nil, if_neg, not_false_eq_true]
    rw [expectChar_cons_self, Option.bind]
    rw [parse_pad0 2 mi _ hmi, Option.bind]
    simp only [List.cons_ne_nil, if_neg, not_false_eq_true]
    rw [expectChar_cons_self, Option.bind]
    rw [parse_pad0_nil 2 ss hss, Option.bind]
    simp
  · simp only [convert_datetime, adapt_datetime, fromisoformat, isoformat,
      parse_time, if_neg h0]
    rw [parse_pad0 4 y _ hy, Option.bind]
    rw [expectChar_cons_self, Option.bind]
    rw [parse_pad0 2 mo _ hmo, Option.bind]
    rw [expectChar_cons_self, Option.bind]
    rw [parse_pad0 2 da _ hda, Option.bind]
    simp only [List.cons_ne_nil, if_neg, List.tail_cons, ne_eq,
      not_false_eq_true]
    rw [parse_pad0 2 hh _ hhh, Option.bind]
    simp only [List.cons_ne_nil, if_neg, not_false_eq_true]
    rw [expectChar_cons_self, Option.bind]
    rw [parse_pad0 2 mi _ hmi, Option.bind]
    simp only [List.cons_ne_nil, if_neg, not_false_eq_true]
    rw [expectChar_cons_self, Option.bind]
    rw [parse_pad0 2 ss _ hss, Option.bind]
    simp only [List.cons_ne_nil, if_neg, not_false_eq_true]
    rw [expectChar_cons_self, Option.bind]
    rw [parse_pad0_nil 6 us hus, Option.bind]
    simp

/-- Witness for C8: the concrete datetime 2024-06-01 12:34:56.000123. -/
theorem convert_adapt_roundtrip_witness :
    convert_datetime (adapt_datetime ⟨2024, 6, 1, 12, 34, 56, 123⟩)
      = some ⟨2024, 6, 1, 12, 34, 56, 123⟩ :=
  convert_adapt_roundtrip ⟨2024, 6, 1, 12, 34, 56, 123⟩ (by decide)

end DbUtils
